import Mathlib

/-!
# Verification of the unoserver supervised-process / request-dispatch core

Shallow embedding of the parts of `unoserver` (server.py, client.py,
converter.py, comparer.py) that the frozen claims are about:

* the XMLRPC `convert`/`compare`/`info` endpoints of `server.py`, their
  `concurrent.futures` timeout wrapper and the `stop_after` hook;
* the exit-code computation of `server.py`'s `main()`;
* the connection-retry loop of `server.py`'s `serve()`;
* the single-threaded request dispatch of `SimpleXMLRPCServer`;
* the parameter validation of `client.py`'s `UnoClient.convert`;
* the conversion pipeline of `converter.py`'s `UnoConverter.convert`,
  recorded as a trace of engine operations;
* the positional-argument binding of the server's call into
  `comparer.py`'s `UnoComparer.compare`.
-/

namespace Unoserver

/-- Values crossing the XMLRPC boundary, as far as the claims need them:
Python `None`, a string, or a binary blob (bytes). -/
inductive PyVal
  | pyNone
  | pyStr (s : String)
  | pyBytes (b : List Nat)
deriving DecidableEq, Repr

/-- Faults an RPC handler can raise to its caller. -/
inductive Fault
  | timeout
  | typeErrorTooManyArguments (expected given : Nat)
  | engineError
deriving DecidableEq, Repr

/-- `future.result(timeout=t)` semantics from `concurrent.futures`, used by
`server.py`: the call is made `elapsed` seconds after the work item (whose
total running time is `duration`) was submitted, and raises `TimeoutError`
exactly when the deadline expires before the work completes.
`timeout = none` models `conversion_timeout = None` (wait forever). -/
def futureTimesOut (elapsed duration : Nat) (timeout : Option Nat) : Bool :=
  match timeout with
  | Option.none => false
  | some t => decide (elapsed + t < duration)

/-- The dispatcher-session state of `server.py`: the configured
`--stop-after` limit, the `number_of_requests` counter (line 193), the
`intentional_exit` flag (line 68) and whether the LibreOffice engine
process is still alive. -/
structure Session where
  stopAfter : Option Nat
  counter : Nat
  intentionalExit : Bool
  engineAlive : Bool
deriving DecidableEq, Repr

/-- Observable events of one RPC handler execution, in program order. -/
inductive HEvent
  | opCompleted
  | contextDisposed
  | engineTerminated
  | setIntentionalExit
  | raiseTimeout
  | raiseEngineError
  | respond
deriving DecidableEq, Repr

/-- The `stop_after()` closure of `server.py` lines 195-205: a no-op when no
limit is configured; otherwise increments `number_of_requests` and, exactly
when the counter reaches the limit, sets `intentional_exit` and terminates
the LibreOffice process. -/
def stopAfterHook (s : Session) : Session × List HEvent :=
  match s.stopAfter with
  | Option.none => (s, [])
  | some n =>
    let c := s.counter + 1
    if c = n then
      ({ s with counter := c, intentionalExit := true, engineAlive := false },
       [HEvent.setIntentionalExit, HEvent.engineTerminated])
    else
      ({ s with counter := c }, [])

instance {ε α : Type _} [DecidableEq ε] [DecidableEq α] :
    DecidableEq (Except ε α) := fun x y =>
  match x, y with
  | Except.ok a, Except.ok b =>
    if h : a = b then isTrue (by rw [h])
    else isFalse (by intro he; cases he; exact h rfl)
  | Except.error a, Except.error b =>
    if h : a = b then isTrue (by rw [h])
    else isFalse (by intro he; cases he; exact h rfl)
  | Except.ok _, Except.error _ => isFalse (by intro h; cases h)
  | Except.error _, Except.ok _ => isFalse (by intro h; cases h)

/-- One engine call as the handler sees it: how long the underlying
`UnoConverter.convert` / `UnoComparer.compare` call runs, and whether it
returns a value (bytes or `None`) or raises. -/
structure EngineCallSpec where
  duration : Nat
  result : Except Unit (Option (List Nat))
deriving DecidableEq, Repr

/-- Result of one RPC handler execution. -/
structure HandlerOutcome where
  session : Session
  events : List HEvent
  response : Except Fault (Option (List Nat))
deriving DecidableEq, Repr

/-- Boolean success test for an `Except`. -/
def exceptOk {ε α : Type} : Except ε α → Bool
  | Except.ok _ => true
  | Except.error _ => false

/-- The XMLRPC `convert` endpoint, `server.py` lines 388-414.
`future.result(timeout=...)` is called inside the `with ThreadPoolExecutor`
block, immediately after `submit` (elapsed time 0).  On
`futures.TimeoutError` the handler disposes the UNO context, terminates the
LibreOffice process and re-raises, so the `TimeoutError` propagates to the
RPC caller as a fault; `intentional_exit` is not touched.  On success it
runs the `stop_after()` hook and then returns the result. -/
def convertHandler (timeout : Option Nat) (call : EngineCallSpec) (s : Session) :
    HandlerOutcome :=
  if futureTimesOut 0 call.duration timeout then
    { session := { s with engineAlive := false },
      events := [HEvent.contextDisposed, HEvent.engineTerminated, HEvent.raiseTimeout],
      response := Except.error Fault.timeout }
  else
    match call.result with
    | Except.error _ =>
      { session := s, events := [HEvent.raiseEngineError],
        response := Except.error Fault.engineError }
    | Except.ok r =>
      let p := stopAfterHook s
      { session := p.1,
        events := HEvent.opCompleted :: p.2 ++ [HEvent.respond],
        response := Except.ok r }

/-- The XMLRPC `compare` endpoint, `server.py` lines 487-514.  Unlike
`convert`, the `try: result = future.result(timeout=...)` block is written
at the same indentation as the `with ThreadPoolExecutor` statement, i.e.
OUTSIDE it: the executor context closes first, and
`ThreadPoolExecutor.__exit__` calls `shutdown(wait=True)`, which blocks
until the submitted call has finished.  Hence `future.result` only runs
once the full `duration` has already elapsed and the future is complete. -/
def compareHandler (timeout : Option Nat) (call : EngineCallSpec) (s : Session) :
    HandlerOutcome :=
  if futureTimesOut call.duration call.duration timeout then
    { session := { s with engineAlive := false },
      events := [HEvent.contextDisposed, HEvent.engineTerminated, HEvent.raiseTimeout],
      response := Except.error Fault.timeout }
  else
    match call.result with
    | Except.error _ =>
      { session := s, events := [HEvent.raiseEngineError],
        response := Except.error Fault.engineError }
    | Except.ok r =>
      let p := stopAfterHook s
      { session := p.1,
        events := HEvent.opCompleted :: p.2 ++ [HEvent.respond],
        response := Except.ok r }

/-- The XMLRPC `info` endpoint, `server.py` lines 207-291: reads the filter
catalogs and version strings but never touches `number_of_requests`,
`intentional_exit` or the engine process. -/
def infoHandler (s : Session) : Session × List HEvent :=
  (s, [HEvent.respond])

/-- Handler success test matching `convert`'s control flow: no timeout and
the underlying call returned instead of raising. -/
def convertSucceeds (timeout : Option Nat) (call : EngineCallSpec) : Bool :=
  !futureTimesOut 0 call.duration timeout && exceptOk call.result

/-- Folding the convert endpoint over a list of inbound requests (the
dispatcher serves them one at a time, see `DStep`). -/
def runConverts (timeout : Option Nat) (calls : List EngineCallSpec) (s : Session) :
    Session :=
  calls.foldl (fun st c => (convertHandler timeout c st).session) s

/-! ## Exit-code computation of `main()` (server.py lines 686-724) -/

/-- The outcome of the `os.kill(pid, 0)` liveness probe at the end of
`main()`: the pid exists, the probe raises errno 3 (ESRCH, "no such
process"), or it raises some other `OSError`. -/
inductive ProbeResult
  | found
  | noSuchProcess
  | raisedOther (errno : Int)
deriving DecidableEq, Repr

/-- By the time the probe at line 714 runs, `process.wait()` (line 700) has
returned and thereby reaped the LibreOffice child process, so on POSIX the
pid no longer exists and `os.kill(pid, 0)` raises errno 3 (ESRCH). -/
def probeAfterReap : ProbeResult := ProbeResult.noSuchProcess

/-- `main()`'s return value, `server.py` lines 686-724.  `startOk = false`
models `server.start()` returning `None` (line 690-691, exit 2).  Otherwise
the code probes the engine pid: if the pid still exists it returns 0 for an
intentional exit and 1 otherwise; if the probe raises errno 3 it returns 0
("All good, it was already dead"); any other `OSError` propagates
(modelled as `Except.error errno`). -/
def mainExit (startOk intentionalExit : Bool) (probe : ProbeResult) :
    Except Int Nat :=
  if startOk then
    match probe with
    | ProbeResult.found => Except.ok (if intentionalExit then 0 else 1)
    | ProbeResult.noSuchProcess => Except.ok 0
    | ProbeResult.raisedOther e => Except.error e
  else
    Except.ok 2

/-! ## The server-side invocation of `UnoComparer.compare`

`server.py` lines 493-502 submit `self.comp.compare` with SIX positional
arguments `(oldpath, olddata, newpath, newdata, outpath, filetype)`, but
`comparer.py` line 124-126 declares
`def compare(self, inpath=None, indata=None, inOrgpath=None, outpath=None,
convert_to=None)` — five parameters besides `self`. -/

/-- The formal parameters of `UnoComparer.compare` (comparer.py lines
124-126), excluding `self`. -/
def comparerCompareParams : List String :=
  ["inpath", "indata", "inOrgpath", "outpath", "convert_to"]

/-- Binding positional arguments to formal parameters in a Python call:
supplying more positional arguments than the function has parameters
raises `TypeError` before the function body runs. -/
def pyBindPositional (params : List String) (args : List PyVal) :
    Except Fault (List (String × PyVal)) :=
  if params.length < args.length then
    Except.error (Fault.typeErrorTooManyArguments params.length args.length)
  else
    Except.ok (params.zip args)

/-- The positional call the compare endpoint submits to the worker thread
(`server.py` lines 494-502), bound against `UnoComparer.compare`'s
parameter list. -/
def serverCompareInvoke (oldpath olddata newpath newdata outpath filetype : PyVal) :
    Except Fault (List (String × PyVal)) :=
  pyBindPositional comparerCompareParams
    [oldpath, olddata, newpath, newdata, outpath, filetype]

/-! ## The control-connection retry loop (server.py serve(), lines 131-190)

Both the `UnoConverter` and the `UnoComparer` startup loops begin with
`attempts = 20` and run `while attempts > 0`.  A `UnoException` whose text
contains "Connection refused" sleeps 2 seconds and subtracts 1 attempt; any
other `UnoException` subtracts 4 attempts and sleeps 5 seconds.  When the
loop exhausts its attempts the `while`'s `else:` clause terminates the
LibreOffice process and returns from `serve()` without ever reaching
`server.serve_forever()` (line 517). -/

/-- Outcome of one connection attempt. -/
inductive AttemptOutcome
  | success
  | refused
  | otherError
deriving DecidableEq, Repr

/-- Result of the retry loop. -/
inductive ConnectResult
  | connected (remaining : Int)
  | exhausted
  | outOfEvents
deriving DecidableEq, Repr

/-- The retry loop, driven by the list of successive attempt outcomes.  The
second component logs the sleeps performed before each retry (2 seconds for
"Connection refused", 5 seconds otherwise).  `outOfEvents` marks a scenario
that supplies fewer attempt outcomes than the loop consumes. -/
def connectLoop : Int → List AttemptOutcome → ConnectResult × List Nat
  | a, [] =>
    if a ≤ 0 then (ConnectResult.exhausted, []) else (ConnectResult.outOfEvents, [])
  | a, e :: rest =>
    if a ≤ 0 then (ConnectResult.exhausted, [])
    else
      match e with
      | AttemptOutcome.success => (ConnectResult.connected a, [])
      | AttemptOutcome.refused =>
        let p := connectLoop (a - 1) rest
        (p.1, 2 :: p.2)
      | AttemptOutcome.otherError =>
        let p := connectLoop (a - 4) rest
        (p.1, 5 :: p.2)

/-- How `serve()` ends its startup phase. -/
inductive ServeOutcome
  | abortedEngineTerminated
  | serving
  | underdetermined
deriving DecidableEq, Repr

/-- `serve()`'s startup (server.py lines 131-190): first the `UnoConverter`
connection loop, then the `UnoComparer` one, each with a budget of 20
attempts.  Exhausting either budget terminates the LibreOffice process and
returns before `serve_forever()` is ever called. -/
def serveStartup (convEvents compEvents : List AttemptOutcome) : ServeOutcome :=
  match (connectLoop 20 convEvents).1 with
  | ConnectResult.exhausted => ServeOutcome.abortedEngineTerminated
  | ConnectResult.outOfEvents => ServeOutcome.underdetermined
  | ConnectResult.connected _ =>
    match (connectLoop 20 compEvents).1 with
    | ConnectResult.exhausted => ServeOutcome.abortedEngineTerminated
    | ConnectResult.outOfEvents => ServeOutcome.underdetermined
    | ConnectResult.connected _ => ServeOutcome.serving

/-! ## Single-flight dispatch (server.py XMLRPCServer, lines 29-44, 516-517)

`XMLRPCServer` subclasses `xmlrpc.server.SimpleXMLRPCServer` without any
threading mix-in, and `start()` creates exactly one serving thread (line
95), so the accept-and-serve loop of `serve_forever()` handles inbound
requests strictly one at a time, taking them from the listening socket in
arrival order.  We model this as a transition system whose handler
capacity `cap` is a parameter; the code's configuration is `cap = 1`. -/

/-- Dispatcher state: `arrivals` is the (ghost) full arrival order,
`pending` the queue of not-yet-started requests, `inFlight` the requests
currently executing against the engine, `finished` the completion order. -/
structure Dispatch where
  arrivals : List Nat
  pending : List Nat
  inFlight : List Nat
  finished : List Nat
deriving DecidableEq, Repr

/-- The idle dispatcher. -/
def Dispatch.init : Dispatch := ⟨[], [], [], []⟩

/-- Dispatcher transitions: a request arrives (it is queued, never
rejected), the serving loop picks the head of the queue when a handler
slot is free, or an in-flight request finishes. -/
inductive DStep (cap : Nat) : Dispatch → Dispatch → Prop
  | arrive (s : Dispatch) (r : Nat) :
      DStep cap s { s with arrivals := s.arrivals ++ [r], pending := s.pending ++ [r] }
  | pick (s : Dispatch) (r : Nat) (rest : List Nat) :
      s.pending = r :: rest → s.inFlight.length < cap →
      DStep cap s { s with pending := rest, inFlight := s.inFlight ++ [r] }
  | finish (s : Dispatch) (r : Nat) (rest : List Nat) :
      s.inFlight = r :: rest →
      DStep cap s { s with inFlight := rest, finished := s.finished ++ [r] }

/-- States reachable from the idle dispatcher. -/
inductive DReach (cap : Nat) : Dispatch → Prop
  | init : DReach cap Dispatch.init
  | step (s t : Dispatch) : DReach cap s → DStep cap s t → DReach cap t

/-! ## Python string/path helpers used by client.py and converter.py -/

/-- Python truthiness of an optional string argument (`if inpath:`):
`None` and the empty string are falsy. -/
def truthyOptStr : Option String → Bool
  | Option.none => false
  | some s => !(s == "")

/-- Python truthiness of an optional bytes argument (`elif indata:`):
`None` and empty bytes are falsy. -/
def truthyOptBytes : Option (List Nat) → Bool
  | Option.none => false
  | some b => !b.isEmpty

/-- The basename of a path: the part after the last slash. -/
def basenameOf (p : String) : List Char :=
  (p.toList.reverse.takeWhile (fun c => c != '/')).reverse

/-- `os.path.splitext(p)[-1]`: the extension of the basename including its
dot, or `""` when there is none.  The extension runs from the basename's
last dot, provided some earlier character of the basename is not a dot
(so `".bashrc"` has no extension). -/
def splitextExt (p : String) : String :=
  let base := basenameOf p
  match base.reverse.findIdx? (fun c => c == '.') with
  | Option.none => ""
  | some k =>
    let sepIdx := base.length - 1 - k
    if (base.take sepIdx).any (fun c => c != '.') then
      String.mk (base.drop sepIdx)
    else ""

/-- Python `s.strip(os.path.extsep)`: remove leading and trailing dots. -/
def stripDots (s : String) : String :=
  String.mk
    (((s.toList.dropWhile (fun c => c == '.')).reverse.dropWhile
        (fun c => c == '.')).reverse)

/-- client.py line 107: `os.path.splitext(outpath)[-1].strip(os.path.extsep)`. -/
def extAfterSplit (p : String) : String := stripDots (splitextExt p)

/-! ## Client-side convert validation (client.py UnoClient.convert, 95-151) -/

/-- Errors `UnoClient.convert` can raise before the RPC call is made. -/
inductive ClientError
  | nothingToConvert
  | bothInputs
  | noOutputSpec
  | outpathIsDirectory
  | openFailed
  | unknownImportFilter
  | unknownExportFilter
deriving DecidableEq, Repr

/-- The client's environment: path normalization, directory test, file
reading (``none`` models `open` failing), and the filter catalogs obtained
from the server's `info()` during `_connect`. -/
structure ClientEnv where
  abspath : String → String
  isdir : String → Bool
  fileBytes : String → Option (List Nat)
  importFilters : List String
  exportFilters : List String

/-- The parameter tuple passed to `proxy.convert` (client.py lines 142-151). -/
structure SentConvertRequest where
  inpath : Option String
  indata : Option (List Nat)
  outpath : Option String
  convert_to : Option String
  filtername : Option String
  filter_options : List String
  update_index : Bool
  infiltername : Option String
deriving DecidableEq, Repr

/-- `UnoClient.convert`, client.py lines 95-151, up to and including the
construction of the `proxy.convert(...)` call.  The XMLRPC connection and
the `info()` API-version negotiation of `_connect` are modelled as
succeeding; an `Except.ok` result is the parameter tuple the client sends,
an `Except.error` means the request was rejected before any RPC (and hence
any engine) call. -/
def clientConvert (env : ClientEnv) (remote : Bool)
    (inpath : Option String) (indata : Option (List Nat))
    (outpath convert_to filtername : Option String)
    (filter_options : List String) (update_index : Bool)
    (infiltername : Option String) :
    Except ClientError SentConvertRequest :=
  if inpath = Option.none ∧ indata = Option.none then
    Except.error ClientError.nothingToConvert
  else if inpath ≠ Option.none ∧ indata ≠ Option.none then
    Except.error ClientError.bothInputs
  else
    match (match convert_to with
           | some ct => Except.ok ct
           | Option.none =>
             match outpath with
             | Option.none => Except.error ClientError.noOutputSpec
             | some op => Except.ok (extAfterSplit op)) with
    | Except.error e => Except.error e
    | Except.ok ct =>
      match (if truthyOptStr inpath then
               if remote then
                 match env.fileBytes (inpath.getD "") with
                 | Option.none => Except.error ClientError.openFailed
                 | some bs => Except.ok (Option.none, some bs)
               else Except.ok (some (env.abspath (inpath.getD "")), indata)
             else Except.ok (inpath, indata)) with
      | Except.error e => Except.error e
      | Except.ok (ip2, ind2) =>
        match (if truthyOptStr outpath then
                 if env.isdir (env.abspath (outpath.getD "")) then
                   Except.error ClientError.outpathIsDirectory
                 else Except.ok (some (env.abspath (outpath.getD "")))
               else Except.ok outpath) with
        | Except.error e => Except.error e
        | Except.ok op2 =>
          if truthyOptStr infiltername ∧
              ¬ (infiltername.getD "") ∈ env.importFilters then
            Except.error ClientError.unknownImportFilter
          else if truthyOptStr filtername ∧
              ¬ (filtername.getD "") ∈ env.exportFilters then
            Except.error ClientError.unknownExportFilter
          else
            Except.ok
              { inpath := ip2, indata := ind2,
                outpath := if remote then Option.none else op2,
                convert_to := some ct,
                filtername := filtername,
                filter_options := filter_options,
                update_index := update_index,
                infiltername := infiltername }

/-! ## The conversion pipeline (converter.py UnoConverter.convert, 158-338)

Modelled as a trace of engine operations plus a result, so that "no engine
call is made" style claims are decidable on the model. -/

/-- Engine-touching operations performed by `UnoConverter.convert`, in
program order. -/
inductive EngineOp
  | queryImportFilters
  | createInputStream
  | loadComponent (url : String)
  | refreshDoc
  | queryDocType
  | queryTypeByURL (url : String)
  | queryExportFilters
  | storeToURL (url : String)
  | closeDocument
deriving DecidableEq, Repr

/-- The errors `UnoConverter.convert` can raise (each constructor stands
for one `raise` site, carrying the data that varies in its message). -/
inductive ConvError
  | noImportFilter
  | inpathMissing
  | unboundImportPath
  | couldNotLoad
  | unknownDocumentType
  | unknownExportType (extension : String)
  | noExportFilterNamed
  | noFilterFound
  | filterOptionNoEquals
  | splitextOnNone
deriving DecidableEq, Repr

/-- Successful outcome: bytes returned to the caller (`outpath is None`),
or the file written server-side. -/
inductive ConvReturn
  | bytesReturned
  | savedToPath
deriving DecidableEq, Repr

/-- The converter's environment: filesystem helpers and the engine's
answers to the queries `convert` makes. -/
structure ConvEnv where
  abspath : String → String
  pathExists : String → Bool
  importFilterNames : List String
  exportFilterNames : List String
  loadOk : Bool
  refreshable : Bool
  docType : Option String
  queryTypeByURL : String → String
  findFilter : String → String → Option String

/-- `uno.systemPathToFileUrl` (URL encoding details are immaterial to the
claims; the function is injective on the paths we use). -/
def systemPathToFileUrl (p : String) : String := "file://" ++ p

/-- Does a filter-option string contain `=` (otherwise
`option.split("=", maxsplit=1)` unpacking raises `ValueError`)? -/
def hasEqSign (s : String) : Bool := s.toList.contains '='

/-- `UnoConverter.convert` (converter.py lines 158-338): returns the result
together with the trace of engine operations performed.  Control flow
follows the source: optional import-filter lookup (190-200), input staging
(202-221, Python truthiness), document load (223-236), index update
(238-253), then inside `try:` the document-type query, export-path and
export-type determination (256-280), filter resolution (282-295), filter
option parsing (302-311) and the store (330); the `finally:` closes the
document on every path that loaded it. -/
def unoConvert (env : ConvEnv) (inpath : Option String) (indata : Option (List Nat))
    (outpath convert_to filtername : Option String) (filter_options : List String)
    (update_index : Bool) (infiltername : Option String) :
    Except ConvError ConvReturn × List EngineOp :=
  let t0 : List EngineOp :=
    if truthyOptStr infiltername then [EngineOp.queryImportFilters] else []
  if truthyOptStr infiltername ∧
      ¬ (infiltername.getD "") ∈ env.importFilterNames then
    (Except.error ConvError.noImportFilter, t0)
  else
    match (if truthyOptStr inpath then
             if env.pathExists (inpath.getD "") then
               Except.ok (systemPathToFileUrl (env.abspath (inpath.getD "")), t0)
             else Except.error ConvError.inpathMissing
           else if truthyOptBytes indata then
             Except.ok ("private:stream", t0 ++ [EngineOp.createInputStream])
           else Except.error ConvError.unboundImportPath) with
    | Except.error e => (Except.error e, t0)
    | Except.ok (importPath, t1) =>
      let t2 := t1 ++ [EngineOp.loadComponent importPath]
      if !env.loadOk then (Except.error ConvError.couldNotLoad, t2)
      else
        let t3 := t2 ++
          (if update_index ∧ env.refreshable then
            [EngineOp.refreshDoc, EngineOp.refreshDoc]
          else [])
        let t4 := t3 ++ [EngineOp.queryDocType]
        match env.docType with
        | Option.none =>
          (Except.error ConvError.unknownDocumentType, t4 ++ [EngineOp.closeDocument])
        | some importType =>
          let exportPath :=
            if truthyOptStr outpath then
              systemPathToFileUrl (env.abspath (outpath.getD ""))
            else "private:stream"
          let queryUrl :=
            if truthyOptStr convert_to then "file:///dummy." ++ convert_to.getD ""
            else exportPath
          let t5 := t4 ++ [EngineOp.queryTypeByURL queryUrl]
          if env.queryTypeByURL queryUrl == "" then
            match (if truthyOptStr convert_to then Except.ok (convert_to.getD "")
                   else match outpath with
                        | some op => Except.ok (splitextExt op)
                        | Option.none => Except.error ConvError.splitextOnNone) with
            | Except.error e => (Except.error e, t5 ++ [EngineOp.closeDocument])
            | Except.ok ext =>
              (Except.error (ConvError.unknownExportType ext),
               t5 ++ [EngineOp.closeDocument])
          else
            let t6 := t5 ++ [EngineOp.queryExportFilters]
            match (match filtername with
                   | some fn =>
                     if fn ∈ env.exportFilterNames then Except.ok fn
                     else Except.error ConvError.noExportFilterNamed
                   | Option.none =>
                     match env.findFilter importType
                         (env.queryTypeByURL queryUrl) with
                     | some fn => Except.ok fn
                     | Option.none => Except.error ConvError.noFilterFound) with
            | Except.error e => (Except.error e, t6 ++ [EngineOp.closeDocument])
            | Except.ok _ =>
              if filter_options.any (fun o => !hasEqSign o) then
                (Except.error ConvError.filterOptionNoEquals,
                 t6 ++ [EngineOp.closeDocument])
              else
                (Except.ok
                   (if outpath = Option.none then ConvReturn.bytesReturned
                    else ConvReturn.savedToPath),
                 t6 ++ [EngineOp.storeToURL exportPath, EngineOp.closeDocument])

/-! ## Auxiliary definitions for the theorems -/

/-- `occursBefore a b l`: some occurrence of `a` strictly precedes some
occurrence of `b` in the list `l`. -/
def occursBefore (a b : HEvent) : List HEvent → Bool
  | [] => false
  | x :: rest => (x == a && rest.contains b) || occursBefore a b rest

/-- Is this response the timeout fault? -/
def isTimeoutFault {α : Type} : Except Fault α → Bool
  | Except.error Fault.timeout => true
  | _ => false

/-- A client environment in which nothing environmental fails: paths are
taken verbatim, the output path is not a directory, files are readable. -/
def benignEnv : ClientEnv :=
  { abspath := id, isdir := fun _ => false, fileBytes := fun _ => some [],
    importFilters := [], exportFilters := [] }

/-- A converter environment for the unknown-extension scenario: the input
path exists, the engine loads the document fine and reports it as a text
document, but the type-detection service knows no type for any URL. -/
def env9 : ConvEnv :=
  { abspath := id, pathExists := fun _ => true, importFilterNames := [],
    exportFilterNames := [], loadOk := true, refreshable := false,
    docType := some "com.sun.star.text.TextDocument",
    queryTypeByURL := fun _ => "", findFilter := fun _ _ => Option.none }

/-! ## Supporting lemmas -/

/-- A `future.result(timeout=...)` call made only after the worker has
already run to completion never raises `TimeoutError`. -/
theorem futureTimesOut_self (d : Nat) (timeout : Option Nat) :
    futureTimesOut d d timeout = false := by
  cases timeout with
  | none => rfl
  | some t => simp [futureTimesOut]

/-- One step of `runConverts`. -/
theorem runConverts_cons (timeout : Option Nat) (c : EngineCallSpec)
    (cs : List EngineCallSpec) (s : Session) :
    runConverts timeout (c :: cs) s =
      runConverts timeout cs (convertHandler timeout c s).session := rfl

/-- Behaviour of the `stop_after` bookkeeping over a run of successful
convert requests: the counter advances by one per request, and
`intentional_exit` becomes true exactly when the counter crosses the
configured limit. -/
theorem runConverts_all_success (timeout : Option Nat)
    (calls : List EngineCallSpec) (n : Nat) :
    ∀ (c0 : Nat) (e0 a0 : Bool),
    (∀ c ∈ calls, convertSucceeds timeout c = true) →
    (runConverts timeout calls ⟨some n, c0, e0, a0⟩).counter = c0 + calls.length
  ∧ ((runConverts timeout calls ⟨some n, c0, e0, a0⟩).intentionalExit = true ↔
      (e0 = true ∨ (c0 < n ∧ n ≤ c0 + calls.length))) := by
  induction calls with
  | nil =>
    intro c0 e0 a0 _
    constructor
    · simp [runConverts]
    · cases e0 <;> simp [runConverts]
  | cons c cs ih =>
    intro c0 e0 a0 hall
    have hc : convertSucceeds timeout c = true := hall c (by simp)
    have hcs : ∀ x ∈ cs, convertSucceeds timeout x = true := by
      intro x hx; exact hall x (by simp [hx])
    have hto : futureTimesOut 0 c.duration timeout = false := by
      have := hc
      simp [convertSucceeds, Bool.and_eq_true] at this
      simpa using this.1
    rcases hres : c.result with e | r
    · exfalso
      simp [convertSucceeds, Bool.and_eq_true, hres, exceptOk] at hc
    · have hstep : (convertHandler timeout c ⟨some n, c0, e0, a0⟩).session =
          (if c0 + 1 = n then Session.mk (some n) (c0 + 1) true false
           else Session.mk (some n) (c0 + 1) e0 a0) := by
        simp only [convertHandler, hto, Bool.false_eq_true, if_false, hres,
          stopAfterHook]
        split <;> rfl
      rw [runConverts_cons, hstep]
      by_cases hn : c0 + 1 = n
      · rw [if_pos hn]
        obtain ⟨ihc, ihf⟩ := ih (c0 + 1) true false hcs
        constructor
        · rw [ihc]; simp; omega
        · rw [ihf]; simp; omega
      · rw [if_neg hn]
        obtain ⟨ihc, ihf⟩ := ih (c0 + 1) e0 a0 hcs
        constructor
        · rw [ihc]; simp; omega
        · rw [ihf]
          cases e0 <;> simp
          omega

/-! ## Claim theorems -/

/-- C1: when the engine call of a convert request (here blocking 10 s)
exceeds the configured conversion timeout (1 s), the caller receives the
timeout fault (the re-raised `TimeoutError`), the LibreOffice engine
process is terminated, and `intentional_exit` stays false — all as the
claim states.  However, the final conjunct shows the supervisor process
then exits 0, not non-zero: after `process.wait()` has reaped the
terminated engine, the `os.kill(pid, 0)` probe raises errno 3 and `main()`
returns 0 through the "All good, it was already dead" branch, contradicting
both the claim and the code's own comment that it "returns 1 after the
process exits". -/
theorem c1_convert_timeout_behavior :
    (convertHandler (some 1) ⟨10, Except.ok (some [])⟩
        ⟨Option.none, 0, false, true⟩).response = Except.error Fault.timeout
  ∧ (convertHandler (some 1) ⟨10, Except.ok (some [])⟩
      ⟨Option.none, 0, false, true⟩).session.engineAlive = false
  ∧ (convertHandler (some 1) ⟨10, Except.ok (some [])⟩
      ⟨Option.none, 0, false, true⟩).session.intentionalExit = false
  ∧ mainExit true false probeAfterReap = Except.ok 0 :=
  ⟨rfl, rfl, rfl, rfl⟩

/-- C2: with the code's single serving thread (`XMLRPCServer` has no
threading mix-in and `start()` spawns exactly one thread for `serve`), in
every reachable dispatcher state at most one request is executing against
the engine, and the full arrival order is exactly the completion order,
followed by the in-flight request, followed by the queue — i.e. requests
arriving while one is in flight wait in FIFO order and none is rejected. -/
theorem c2_single_flight_fifo (s : Dispatch) (h : DReach 1 s) :
    s.inFlight.length ≤ 1 ∧
    s.arrivals = s.finished ++ s.inFlight ++ s.pending := by
  induction h with
  | init => exact ⟨by simp [Dispatch.init], by simp [Dispatch.init]⟩
  | step u t hu hstep ih =>
    obtain ⟨ih1, ih2⟩ := ih
    cases hstep with
    | arrive r =>
      refine ⟨by simpa using ih1, ?_⟩
      simp only [ih2, List.append_assoc]
    | pick r rest hp hc =>
      constructor
      · simp only [List.length_append, List.length_cons, List.length_nil]
        omega
      · simp only [ih2, hp, List.append_assoc, List.singleton_append]
    | finish r rest hf =>
      constructor
      · have h1 : u.inFlight.length ≤ 1 := ih1
        rw [hf] at h1
        simp only [List.length_cons] at h1
        show rest.length ≤ 1
        omega
      · simp [ih2, hf]

/-- Witness for C2: the state reached after one arrival. -/
theorem c2_single_flight_fifo_witness :
    (Dispatch.mk [0] [0] [] []).inFlight.length ≤ 1 ∧
    (Dispatch.mk [0] [0] [] []).arrivals =
      (Dispatch.mk [0] [0] [] []).finished ++
        (Dispatch.mk [0] [0] [] []).inFlight ++
        (Dispatch.mk [0] [0] [] []).pending :=
  c2_single_flight_fifo (Dispatch.mk [0] [0] [] [])
    (DReach.step Dispatch.init (Dispatch.mk [0] [0] [] []) DReach.init
      (DStep.arrive Dispatch.init 0))

/-- C3: the claim says exit code 0 iff the shutdown was intentional, and
non-zero whenever the engine died unexpectedly.  The first conjunct
refutes the unexpected-death direction: with `intentional_exit = false`
(engine died unexpectedly) the process still exits 0, because after
`process.wait()` reaps the child the `os.kill(pid, 0)` probe raises
errno 3 and line 723 returns 0.  The remaining conjuncts record the
surrounding behaviour: an intentional exit also returns 0, a startup
failure returns 2, and the intended-but-unreachable `found` branch is the
only place the code would return 1. -/
theorem c3_exit_code_unintentional_death :
    mainExit true false probeAfterReap = Except.ok 0
  ∧ mainExit true true probeAfterReap = Except.ok 0
  ∧ mainExit false false probeAfterReap = Except.ok 2
  ∧ mainExit true false ProbeResult.found = Except.ok 1 :=
  ⟨rfl, rfl, rfl, rfl⟩

/-- C4 counterexample: the claim says the dispatcher initiates graceful
shutdown "only after returning the triggering response to its caller, not
before".  Formalised on the handler trace, that reads: `engineTerminated`
never occurs before `respond`.  At the triggering request (stop_after = 1,
first successful convert) the trace is
`[opCompleted, setIntentionalExit, engineTerminated, respond]`, so the
engine is terminated strictly before the handler returns the response:
`stop_after()` runs before the `return result` statement
(server.py lines 412-414). -/
theorem c4_counterexample :
    occursBefore HEvent.engineTerminated HEvent.respond
      (convertHandler Option.none ⟨0, Except.ok Option.none⟩
        ⟨some 1, 0, false, true⟩).events = true := rfl

/-- C4 amended: with `stop_after = n ≥ 1`, the dispatcher counts exactly
the successful operations — after serving `k` successful converts the
counter is `k` and `intentional_exit` is set iff `n ≤ k` (so shutdown is
initiated exactly on the n-th success) — and on the triggering request the
shutdown actions happen after the operation has completed successfully but
BEFORE the response is returned; the response is nevertheless still
produced (the handler returns it after `stop_after()`). -/
theorem c4_amended_stop_after (timeout : Option Nat)
    (calls : List EngineCallSpec) (n : Nat) (hn : 1 ≤ n)
    (hall : ∀ c ∈ calls, convertSucceeds timeout c = true) :
    ((runConverts timeout calls ⟨some n, 0, false, true⟩).counter = calls.length
     ∧ ((runConverts timeout calls ⟨some n, 0, false, true⟩).intentionalExit
          = true ↔ n ≤ calls.length))
  ∧ (∀ (call : EngineCallSpec) (s : Session),
      s.stopAfter = some n → s.counter + 1 = n →
      convertSucceeds timeout call = true →
      (convertHandler timeout call s).events =
        [HEvent.opCompleted, HEvent.setIntentionalExit,
         HEvent.engineTerminated, HEvent.respond]
      ∧ exceptOk (convertHandler timeout call s).response = true
      ∧ (convertHandler timeout call s).session.intentionalExit = true
      ∧ (convertHandler timeout call s).session.engineAlive = false) := by
  constructor
  · obtain ⟨hc, hf⟩ := runConverts_all_success timeout calls n 0 false true hall
    refine ⟨by simpa using hc, ?_⟩
    rw [hf]
    constructor
    · rintro (h | ⟨_, h2⟩)
      · cases h
      · simpa using h2
    · intro h
      right
      exact ⟨by omega, by simpa using h⟩
  · intro call s hsa hcnt hsucc
    have hto : futureTimesOut 0 call.duration timeout = false := by
      have := hsucc
      simp [convertSucceeds, Bool.and_eq_true] at this
      simpa using this.1
    rcases hres : call.result with e | r
    · exfalso
      simp [convertSucceeds, Bool.and_eq_true, hres, exceptOk] at hsucc
    · simp [convertHandler, hto, hres, stopAfterHook, hsa, hcnt, exceptOk]

/-- Witness for C4's amended theorem: stop_after = 1 and one successful
convert request. -/
theorem c4_amended_stop_after_witness :
    (runConverts Option.none
        [EngineCallSpec.mk 0 (Except.ok Option.none)]
        ⟨some 1, 0, false, true⟩).counter =
      ([EngineCallSpec.mk 0 (Except.ok Option.none)] :
        List EngineCallSpec).length
  ∧ ((runConverts Option.none
        [EngineCallSpec.mk 0 (Except.ok Option.none)]
        ⟨some 1, 0, false, true⟩).intentionalExit = true ↔
      1 ≤ ([EngineCallSpec.mk 0 (Except.ok Option.none)] :
        List EngineCallSpec).length) :=
  (c4_amended_stop_after Option.none
    [EngineCallSpec.mk 0 (Except.ok Option.none)] 1 (by decide)
    (by decide)).1

/-- C5: the control-connection retry policy of `serve()`.  A
"connection refused" failure consumes exactly one attempt, sleeping 2 s
before the retry; any other error class consumes four attempts at once,
sleeping 5 s; and if the 20-attempt budget of either loop exhausts, the
LibreOffice process is terminated and `serve_forever()` is never reached. -/
theorem c5_connect_retry_policy (a : Int) (rest evs1 evs2 : List AttemptOutcome)
    (ha : 0 < a) :
    connectLoop a (AttemptOutcome.refused :: rest) =
      ((connectLoop (a - 1) rest).1, 2 :: (connectLoop (a - 1) rest).2)
  ∧ connectLoop a (AttemptOutcome.otherError :: rest) =
      ((connectLoop (a - 4) rest).1, 5 :: (connectLoop (a - 4) rest).2)
  ∧ ((connectLoop 20 evs1).1 = ConnectResult.exhausted →
      serveStartup evs1 evs2 = ServeOutcome.abortedEngineTerminated) := by
  have hna : ¬ a ≤ 0 := by omega
  refine ⟨?_, ?_, ?_⟩
  · simp [connectLoop, hna]
  · simp [connectLoop, hna]
  · intro h
    simp [serveStartup, h]

/-- Witness for C5: budget 5, one refused attempt consumed. -/
theorem c5_connect_retry_policy_witness :
    connectLoop 5 [AttemptOutcome.refused] =
      ((connectLoop (5 - 1) []).1, 2 :: (connectLoop (5 - 1) []).2) :=
  (c5_connect_retry_policy 5 [] [] [] (by decide)).1

/-- C6: every compare RPC request fails before any validation or engine
work: the endpoint submits six positional arguments
`(oldpath, olddata, newpath, newdata, outpath, filetype)`, but
`UnoComparer.compare` declares only five parameters besides `self`
(`inpath, indata, inOrgpath, outpath, convert_to`), so Python raises
`TypeError` when binding the call, for ALL argument values.  Hence the
claimed per-pair exactly-one-of validation never runs and no bytes/null
result is ever returned, contradicting the endpoint's own docstring
(server.py lines 425-486). -/
theorem c6_compare_arity_mismatch
    (oldpath olddata newpath newdata outpath filetype : PyVal) :
    serverCompareInvoke oldpath olddata newpath newdata outpath filetype =
      Except.error (Fault.typeErrorTooManyArguments 5 6) := rfl

/-- C7: the compare endpoint's timeout wrapper is dead code.  The first
conjunct: for EVERY configured timeout, call duration and session state,
the compare handler never produces the timeout fault — because the
`try: result = future.result(timeout=...)` block sits outside the
`with ThreadPoolExecutor` block, whose `__exit__` joins the worker, so
`result()` always finds a completed future.  The last two conjuncts
evaluate the failing input of the claim (timeout 1 s, engine call 10 s):
compare returns the result normally after waiting the full 10 s, while the
structurally different convert handler does raise the timeout fault. -/
theorem c7_compare_timeout_never_fires :
    (∀ (timeout : Option Nat) (call : EngineCallSpec) (s : Session),
      isTimeoutFault (compareHandler timeout call s).response = false)
  ∧ compareHandler (some 1) ⟨10, Except.ok (some [])⟩
      ⟨Option.none, 0, false, true⟩ =
      { session := ⟨Option.none, 0, false, true⟩,
        events := [HEvent.opCompleted, HEvent.respond],
        response := Except.ok (some []) }
  ∧ (convertHandler (some 1) ⟨10, Except.ok (some [])⟩
      ⟨Option.none, 0, false, true⟩).response = Except.error Fault.timeout := by
  refine ⟨?_, rfl, rfl⟩
  intro timeout call s
  rw [compareHandler, futureTimesOut_self]
  simp only [Bool.false_eq_true, if_false]
  rcases call.result with e | r
  · rfl
  · rfl

/-- C8 counterexample: a convert request with BOTH an output path and an
explicit target format is accepted by the client-side validation and sent
to the server, whereas the claim requires every such both-set combination
to be rejected with an invalid-request fault.  (In fact the client itself
always sends a non-null target format alongside the output path, deriving
it from the path's extension.) -/
theorem c8_counterexample :
    exceptOk (clientConvert benignEnv false (some "a.odt") Option.none
      (some "a.pdf") (some "pdf") Option.none [] true Option.none) = true := rfl

/-- C8 amended: for every convert request, exactly one of {input path,
inline input bytes} must be set — both absent is rejected with
"Nothing to convert." and both set with "You can only pass in inpath or
indata, not both." — and AT LEAST one of {output path, target format}
must be set — both absent is rejected; these rejections happen before the
RPC (hence before any engine) call.  Supplying both output path and target
format is accepted, with the explicit target format taking precedence.
The last conjunct: any accepted request satisfies the amended rule. -/
theorem c8_amended_validation (env : ClientEnv) (remote : Bool)
    (inpath : Option String) (indata : Option (List Nat))
    (outpath convert_to filtername : Option String)
    (fo : List String) (ui : Bool) (infil : Option String) :
    (inpath = Option.none → indata = Option.none →
      clientConvert env remote inpath indata outpath convert_to
          filtername fo ui infil =
        Except.error ClientError.nothingToConvert)
  ∧ (inpath ≠ Option.none → indata ≠ Option.none →
      clientConvert env remote inpath indata outpath convert_to
          filtername fo ui infil =
        Except.error ClientError.bothInputs)
  ∧ (convert_to = Option.none → outpath = Option.none →
      ¬(inpath = Option.none ∧ indata = Option.none) →
      ¬(inpath ≠ Option.none ∧ indata ≠ Option.none) →
      clientConvert env remote inpath indata outpath convert_to
          filtername fo ui infil =
        Except.error ClientError.noOutputSpec)
  ∧ (∀ req, clientConvert env remote inpath indata outpath convert_to
          filtername fo ui infil = Except.ok req →
      ¬(inpath = Option.none ∧ indata = Option.none)
      ∧ ¬(inpath ≠ Option.none ∧ indata ≠ Option.none)
      ∧ (outpath ≠ Option.none ∨ convert_to ≠ Option.none)) := by
  have hA : inpath = Option.none → indata = Option.none →
      clientConvert env remote inpath indata outpath convert_to
          filtername fo ui infil =
        Except.error ClientError.nothingToConvert := by
    intro h1 h2
    simp [clientConvert, h1, h2]
  have hB : inpath ≠ Option.none → indata ≠ Option.none →
      clientConvert env remote inpath indata outpath convert_to
          filtername fo ui infil =
        Except.error ClientError.bothInputs := by
    intro h1 h2
    simp [clientConvert, h1, h2]
  have hC : convert_to = Option.none → outpath = Option.none →
      ¬(inpath = Option.none ∧ indata = Option.none) →
      ¬(inpath ≠ Option.none ∧ indata ≠ Option.none) →
      clientConvert env remote inpath indata outpath convert_to
          filtername fo ui infil =
        Except.error ClientError.noOutputSpec := by
    intro hct hop h1 h2
    simp [clientConvert, hct, hop, h1, h2]
  refine ⟨hA, hB, hC, ?_⟩
  intro req hok
  by_cases h1 : inpath = Option.none ∧ indata = Option.none
  · rw [hA h1.1 h1.2] at hok
    cases hok
  by_cases h2 : inpath ≠ Option.none ∧ indata ≠ Option.none
  · rw [hB h2.1 h2.2] at hok
    cases hok
  refine ⟨h1, h2, ?_⟩
  by_cases hct : convert_to = Option.none
  · by_cases hop : outpath = Option.none
    · rw [hC hct hop h1 h2] at hok
      cases hok
    · exact Or.inl hop
  · exact Or.inr hct

/-- Witness for C8's amended theorem: the empty request is rejected before
any RPC call. -/
theorem c8_amended_validation_witness :
    clientConvert benignEnv false Option.none Option.none (some "a.pdf")
      Option.none Option.none [] true Option.none =
      Except.error ClientError.nothingToConvert :=
  (c8_amended_validation benignEnv false Option.none Option.none
    (some "a.pdf") Option.none Option.none [] true Option.none).1 rfl rfl

/-- C9 counterexample: a convert request whose output path has the unknown
extension ".bog" and no explicit target format does fail with the
invalid-parameter fault, but an engine call IS made for the request: the
input document is loaded into the engine (`loadComponentFromURL`, plus the
document-type and type-detection queries) before the export type is
checked, so the trace of engine operations is non-empty and contains the
load — contradicting the claim that "no engine call is made". -/
theorem c9_counterexample :
    (unoConvert env9 (some "in.odt") Option.none (some "out.bog")
        Option.none Option.none [] true Option.none).1 =
      Except.error (ConvError.unknownExportType ".bog")
  ∧ EngineOp.loadComponent "file://in.odt" ∈
      (unoConvert env9 (some "in.odt") Option.none (some "out.bog")
        Option.none Option.none [] true Option.none).2 := by
  refine ⟨rfl, ?_⟩
  decide

/-- C9 amended: a convert request whose output path has an extension
unknown to the engine's type-detection service, with no explicit target
format, fails with the invalid-parameter fault
(`Unknown export file type, unknown extension ...`) and no EXPORT engine
call (`storeToURL`) is made for it — but only after the input document has
already been loaded into the engine, which the trace records (the document
is closed again on the error path). -/
theorem c9_amended_unknown_extension (env : ConvEnv)
    (inpath outpath t : String)
    (hin : inpath ≠ "") (hout : outpath ≠ "")
    (hex : env.pathExists inpath = true) (hld : env.loadOk = true)
    (hdt : env.docType = some t)
    (hq : env.queryTypeByURL (systemPathToFileUrl (env.abspath outpath)) = "") :
    (unoConvert env (some inpath) Option.none (some outpath) Option.none
        Option.none [] false Option.none).1 =
      Except.error (ConvError.unknownExportType (splitextExt outpath))
  ∧ (∀ u, ¬ EngineOp.storeToURL u ∈
      (unoConvert env (some inpath) Option.none (some outpath) Option.none
        Option.none [] false Option.none).2)
  ∧ EngineOp.loadComponent (systemPathToFileUrl (env.abspath inpath)) ∈
      (unoConvert env (some inpath) Option.none (some outpath) Option.none
        Option.none [] false Option.none).2 := by
  have key : unoConvert env (some inpath) Option.none (some outpath)
      Option.none Option.none [] false Option.none =
      (Except.error (ConvError.unknownExportType (splitextExt outpath)),
       [EngineOp.loadComponent (systemPathToFileUrl (env.abspath inpath)),
        EngineOp.queryDocType,
        EngineOp.queryTypeByURL (systemPathToFileUrl (env.abspath outpath)),
        EngineOp.closeDocument]) := by
    simp [unoConvert, truthyOptStr, truthyOptBytes, hin, hout, hex, hld,
      hdt, hq]
  rw [key]
  refine ⟨rfl, ?_, ?_⟩
  · intro u
    simp
  · simp

/-- Witness for C9's amended theorem at the concrete ".bog" scenario. -/
theorem c9_amended_unknown_extension_witness :
    (unoConvert env9 (some "in.odt") Option.none (some "out.bog")
        Option.none Option.none [] false Option.none).1 =
      Except.error (ConvError.unknownExportType (splitextExt "out.bog")) :=
  (c9_amended_unknown_extension env9 "in.odt" "out.bog"
    "com.sun.star.text.TextDocument" (by decide) (by decide)
    rfl rfl rfl rfl).1

/-- C10: the `number_of_requests` counter moves only on the configured,
successful path.  For the convert endpoint the counter is incremented
exactly when `stop_after` is configured AND the operation neither timed
out nor raised; likewise for the compare endpoint (which can never time
out, see the compare handler); `info()` leaves the whole session — counter
included — untouched.  In particular failed requests and timeouts never
count toward the stop-after limit, and with no limit configured the
counter never moves. -/
theorem c10_counter_increment_conditions (timeout : Option Nat)
    (call : EngineCallSpec) (s : Session) :
    (convertHandler timeout call s).session.counter =
      (if s.stopAfter.isSome && convertSucceeds timeout call then
        s.counter + 1
       else s.counter)
  ∧ (compareHandler timeout call s).session.counter =
      (if s.stopAfter.isSome && exceptOk call.result then s.counter + 1
       else s.counter)
  ∧ (infoHandler s).1 = s := by
  refine ⟨?_, ?_, rfl⟩
  · rcases hto : futureTimesOut 0 call.duration timeout with _ | _
    · rcases hres : call.result with e | r
      · simp [convertHandler, hto, hres, convertSucceeds, exceptOk]
      · rcases hsa : s.stopAfter with _ | n
        · simp [convertHandler, hto, hres, convertSucceeds, exceptOk,
            stopAfterHook, hsa]
        · simp only [convertHandler, hto, Bool.false_eq_true, if_false,
            hres, stopAfterHook, hsa, convertSucceeds, exceptOk,
            Option.isSome_some, Bool.not_false, Bool.true_and,
            Bool.and_true]
          split <;> simp
    · simp [convertHandler, hto, convertSucceeds]
  · rw [compareHandler, futureTimesOut_self]
    rcases hres : call.result with e | r
    · simp [hres, exceptOk]
    · rcases hsa : s.stopAfter with _ | n
      · simp [hres, exceptOk, stopAfterHook, hsa]
      · simp only [Bool.false_eq_true, if_false, hres, stopAfterHook, hsa,
          exceptOk, Option.isSome_some, Bool.true_and]
        split <;> simp

end Unoserver
